import Mathlib

/-!
Verification of the Genomic-Data-Bias repository (two analysis scripts:
`scripts/AoU/level1_metadata_analysis.py` and
`scripts/AoU/level2_metadata_analysis.py`) against its natural-language
specification.

The scripts build SQL strings over four warehouse tables (`person`,
`concept`, `observation`, `zip3_ses_map`), load the results into pandas
DataFrames, and run statistical tests (Kruskal-Wallis, Dunn, chi-square).
We embed the relational content of the SQL queries as list-processing
functions, the DataFrame manipulations as functions on lists of typed
rows, and the scripts' straight-line control flow (including uncaught
library exceptions) in the `Except` monad.
-/

attribute [local semireducible] Rat.add Rat.mul Rat.sub Rat.inv Rat.ofScientific

/-- A row of the `person` table (the columns the queries read).
Concept-id columns are `Option` so that a SQL NULL simply fails every
equi-join condition, as in SQL three-valued logic. -/
structure PersonRow where
  person_id : Nat
  year_of_birth : Option Int
  sex_at_birth_concept_id : Option Nat
  race_concept_id : Option Nat
  ethnicity_concept_id : Option Nat
deriving DecidableEq

/-- A row of the `concept` lookup table. -/
structure ConceptRow where
  concept_id : Nat
  concept_name : String
deriving DecidableEq

/-- A row of the `observation` table (the columns the queries read). -/
structure ObservationRow where
  person_id : Nat
  observation_source_concept_id : Nat
  value_as_string : Option String
deriving DecidableEq

/-- A row of the `zip3_ses_map` socioeconomic lookup table. -/
structure SesRow where
  zip3_as_string : String
  median_income : Option Rat
  fraction_poverty : Option Rat
  fraction_no_health_ins : Option Rat
deriving DecidableEq

/-- The warehouse dataset the queries run against. -/
structure Database where
  person : List PersonRow
  concept : List ConceptRow
  observation : List ObservationRow
  zip3_ses_map : List SesRow

/-- SQL `LEFT JOIN`: every left row is preserved; it pairs with each
matching right row, or with `none` when no right row matches. -/
def leftJoin {α β γ : Type} (r : List β) (onp : α → β → Bool)
    (merge : α → Option β → γ) : List α → List γ
  | [] => []
  | a :: l =>
    (if (r.filter (onp a)).isEmpty then [merge a none]
     else (r.filter (onp a)).map (fun b => merge a (some b)))
    ++ leftJoin r onp merge l

/-- SQL inner `JOIN`: a left row appears once per matching right row and
is dropped when no right row matches. -/
def innerJoin {α β γ : Type} (r : List β) (onp : α → β → Bool)
    (merge : α → β → γ) : List α → List γ
  | [] => []
  | a :: l => (r.filter (onp a)).map (merge a) ++ innerJoin r onp merge l

/-- The three concept-label LEFT JOINs shared by the level-1 demographics
query (`level1_metadata_analysis.py` lines 34-48) and the level-2
combined query (`level2_metadata_analysis.py` lines 32-58):
`person p LEFT JOIN concept c_sex ... LEFT JOIN concept c_race ...
LEFT JOIN concept c_eth ...`. -/
def demoJoins (db : Database) :
    List (((PersonRow × Option ConceptRow) × Option ConceptRow) × Option ConceptRow) :=
  leftJoin db.concept
    (fun x c => x.1.1.ethnicity_concept_id == some c.concept_id)
    (fun x c => (x, c))
    (leftJoin db.concept
      (fun x c => x.1.race_concept_id == some c.concept_id)
      (fun x c => (x, c))
      (leftJoin db.concept
        (fun p c => p.sex_at_birth_concept_id == some c.concept_id)
        (fun p c => (p, c))
        db.person))

/-- A result row of the level-1 demographics query. -/
structure DemoRow where
  age : Option Int
  sex_at_birth : Option String
  race : Option String
  ethnicity : Option String
deriving DecidableEq

/-- The level-1 demographics query (`level1_metadata_analysis.py`,
`sql_query`, lines 34-48): age is `2025 - year_of_birth`, and the three
concept names are taken from the LEFT-JOINed lookup rows. -/
def sql_query_level1 (db : Database) : List DemoRow :=
  (demoJoins db).map (fun x =>
    { age := x.1.1.1.year_of_birth.map (fun y => 2025 - y)
      sex_at_birth := x.1.1.2.map ConceptRow.concept_name
      race := x.1.2.map ConceptRow.concept_name
      ethnicity := x.2.map ConceptRow.concept_name })

/-- The join part of the level-2 combined query
(`level2_metadata_analysis.py`, `sql_query`, lines 32-58): the
demographics joins, then
`LEFT JOIN observation obs ON p.person_id = obs.person_id AND
obs.observation_source_concept_id = 1585250`, then
`LEFT JOIN zip3_ses_map ses ON obs.value_as_string = ses.zip3_as_string`
(a NULL `obs` or NULL `value_as_string` matches no `ses` row). -/
def combinedJoins (db : Database) :
    List (((((PersonRow × Option ConceptRow) × Option ConceptRow) × Option ConceptRow)
      × Option ObservationRow) × Option SesRow) :=
  leftJoin db.zip3_ses_map
    (fun x s =>
      match x.2 with
      | some o => o.value_as_string == some s.zip3_as_string
      | none => false)
    (fun x s => (x, s))
    (leftJoin db.observation
      (fun x o => x.1.1.1.person_id == o.person_id
        && o.observation_source_concept_id == 1585250)
      (fun x o => (x, o))
      (demoJoins db))

/-- A result row of the level-2 combined query (the `df_analysis`
DataFrame schema). -/
structure AnalysisRow where
  person_id : Nat
  age : Option Int
  sex_at_birth : Option String
  race : Option String
  ethnicity : Option String
  median_income : Option Rat
  fraction_poverty : Option Rat
  fraction_no_health_ins : Option Rat
deriving DecidableEq

/-- The level-2 combined query (`level2_metadata_analysis.py`,
`sql_query`, lines 32-58). SES columns are NULL when either the
observation or the SES lookup failed to match (or the lookup field
itself is NULL). -/
def sql_query_level2 (db : Database) : List AnalysisRow :=
  (combinedJoins db).map (fun x =>
    { person_id := x.1.1.1.1.1.person_id
      age := x.1.1.1.1.1.year_of_birth.map (fun y => 2025 - y)
      sex_at_birth := x.1.1.1.1.2.map ConceptRow.concept_name
      race := x.1.1.1.2.map ConceptRow.concept_name
      ethnicity := x.1.1.2.map ConceptRow.concept_name
      median_income := x.2.bind SesRow.median_income
      fraction_poverty := x.2.bind SesRow.fraction_poverty
      fraction_no_health_ins := x.2.bind SesRow.fraction_no_health_ins })

/-- The level-1 SES query (`level1_metadata_analysis.py`,
`sql_query_ses`, lines 116-129): `FROM observation obs JOIN zip3_ses_map
ses ON obs.value_as_string = ses.zip3_as_string WHERE
obs.observation_source_concept_id = 1585250`.  Note this is an inner
`JOIN`, not a LEFT JOIN; the WHERE condition depends only on `obs`, so
it is applied to the left operand. -/
def sql_query_ses (db : Database) : List (Option Rat × Option Rat × Option Rat) :=
  innerJoin db.zip3_ses_map
    (fun (o : ObservationRow) s => o.value_as_string == some s.zip3_as_string)
    (fun _ s => (s.median_income, s.fraction_poverty, s.fraction_no_health_ins))
    (db.observation.filter (fun o => o.observation_source_concept_id == 1585250))

/-- Uniqueness of the concept lookup on its join key `concept_id`. -/
abbrev concept_unique (db : Database) : Prop :=
  (db.concept.map (fun c => c.concept_id)).Nodup

/-- Uniqueness of the postal-prefix observation on its join key: among
observations of the fixed survey question 1585250, `person_id` is
unique. -/
abbrev obs_unique (db : Database) : Prop :=
  ((db.observation.filter (fun o => o.observation_source_concept_id == 1585250)).map
    (fun o => o.person_id)).Nodup

/-- Uniqueness of the SES lookup on its join key `zip3_as_string`. -/
abbrev ses_unique (db : Database) : Prop :=
  (db.zip3_ses_map.map (fun s => s.zip3_as_string)).Nodup

lemma filter_length_le_one {β : Type} {pred : β → Bool} :
    ∀ {r : List β}, r.Pairwise (fun b1 b2 => ¬(pred b1 = true ∧ pred b2 = true)) →
      (r.filter pred).length ≤ 1 := by
  intro r h
  induction r with
  | nil => simp
  | cons b r ih =>
    rcases List.pairwise_cons.mp h with ⟨hb, hr⟩
    by_cases hp : pred b = true
    · have hrest : r.filter pred = [] := by
        apply List.filter_eq_nil_iff.mpr
        intro b' hb' hpb'
        exact hb b' hb' ⟨hp, hpb'⟩
      simp [List.filter_cons, hp, hrest]
    · simpa [List.filter_cons, hp] using ih hr

lemma leftJoin_length {α β γ : Type} (r : List β) (onp : α → β → Bool)
    (merge : α → Option β → γ) :
    ∀ l : List α, (∀ a, (r.filter (onp a)).length ≤ 1) →
      (leftJoin r onp merge l).length = l.length := by
  intro l h
  induction l with
  | nil => rfl
  | cons a l ih =>
    have hpiece :
        (if (r.filter (onp a)).isEmpty then [merge a none]
         else (r.filter (onp a)).map (fun b => merge a (some b))).length = 1 := by
      by_cases he : (r.filter (onp a)).isEmpty = true
      · rw [if_pos he]
        rfl
      · have hne : (r.filter (onp a)).length ≠ 0 := by
          intro h0
          exact he (List.isEmpty_iff.mpr (List.length_eq_zero.mp h0))
        have h1 := h a
        rw [if_neg he, List.length_map]
        omega
    simp only [leftJoin, List.length_append]
    rw [hpiece, ih, List.length_cons]
    omega

lemma leftJoin_mem {α β γ : Type} (r : List β) (onp : α → β → Bool)
    (merge : α → Option β → γ) :
    ∀ {l : List α} {a : α}, a ∈ l → ∃ ob, merge a ob ∈ leftJoin r onp merge l := by
  intro l
  induction l with
  | nil => intro a ha; cases ha
  | cons x l ih =>
    intro a ha
    rcases List.mem_cons.mp ha with h | h
    · subst h
      by_cases he : (r.filter (onp a)).isEmpty = true
      · exact ⟨none, by simp [leftJoin, he]⟩
      · have hne : r.filter (onp a) ≠ [] := fun h0 => he (by rw [h0]; rfl)
        rcases List.exists_mem_of_ne_nil _ hne with ⟨b, hb⟩
        refine ⟨some b, ?_⟩
        simp only [leftJoin, he, if_false]
        exact List.mem_append_left _ (List.mem_map_of_mem _ hb)
    · rcases ih h with ⟨ob, hob⟩
      exact ⟨ob, by simp only [leftJoin]; exact List.mem_append_right _ hob⟩

lemma nodup_map_pairwise {α β : Type} {f : α → β} {l : List α}
    (h : (l.map f).Nodup) : l.Pairwise (fun a b => f a ≠ f b) :=
  (List.pairwise_map).mp h

/-- From uniqueness of `f`-keys among the `q`-rows of `l`, any two
positions of `l` that both satisfy `q` carry distinct keys. -/
lemma filter_map_nodup_pairwise {α β : Type} {q : α → Bool} {f : α → β} :
    ∀ {l : List α}, ((l.filter q).map f).Nodup →
      l.Pairwise (fun a b => q a = true → q b = true → f a ≠ f b) := by
  intro l
  induction l with
  | nil => intro _; exact List.Pairwise.nil
  | cons a l ih =>
    intro h
    by_cases hq : q a = true
    · rw [List.filter_cons_of_pos hq, List.map_cons] at h
      rcases List.nodup_cons.mp h with ⟨hna, hrest⟩
      refine List.pairwise_cons.mpr ⟨?_, ih hrest⟩
      intro b hb _ hqb hfe
      exact hna (hfe ▸ List.mem_map_of_mem f (List.mem_filter.mpr ⟨hb, hqb⟩))
    · rw [List.filter_cons_of_neg hq] at h
      refine List.pairwise_cons.mpr ⟨?_, ih h⟩
      intro b _ hqa
      exact absurd hqa hq

/-- Under concept-key uniqueness, each concept equi-join matches at most
one lookup row. -/
lemma concept_filter_le_one {db : Database} (hc : concept_unique db)
    (k : Option Nat) :
    (db.concept.filter (fun c => k == some c.concept_id)).length ≤ 1 := by
  apply filter_length_le_one
  apply (nodup_map_pairwise hc).imp
  intro c1 c2 hne hand
  rcases hand with ⟨h1, h2⟩
  have e1 : k = some c1.concept_id := by simpa using h1
  have e2 : k = some c2.concept_id := by simpa using h2
  exact hne (Option.some.inj (e1 ▸ e2))

/-- Under postal-prefix-observation uniqueness, the observation join of
the combined query matches at most one observation row per person. -/
lemma obs_filter_le_one {db : Database} (ho : obs_unique db) (pid : Nat) :
    (db.observation.filter (fun o => pid == o.person_id
      && o.observation_source_concept_id == 1585250)).length ≤ 1 := by
  apply filter_length_le_one
  apply (filter_map_nodup_pairwise ho).imp
  intro o1 o2 h hand
  rcases hand with ⟨h1, h2⟩
  have h1' : pid = o1.person_id ∧ o1.observation_source_concept_id = 1585250 := by
    simpa using h1
  have h2' : pid = o2.person_id ∧ o2.observation_source_concept_id = 1585250 := by
    simpa using h2
  exact h (by simp [h1'.2]) (by simp [h2'.2]) (h1'.1 ▸ h2'.1)

/-- Under SES-key uniqueness, the SES join of the combined query matches
at most one SES row, whatever the (possibly missing) observation. -/
lemma ses_filter_le_one {db : Database} (hs : ses_unique db)
    (ob : Option ObservationRow) :
    (db.zip3_ses_map.filter (fun s =>
      match ob with
      | some o => o.value_as_string == some s.zip3_as_string
      | none => false)).length ≤ 1 := by
  cases ob with
  | none =>
    show (db.zip3_ses_map.filter (fun _ => false)).length ≤ 1
    simp
  | some o =>
    show (db.zip3_ses_map.filter
      (fun s => o.value_as_string == some s.zip3_as_string)).length ≤ 1
    rcases hv : o.value_as_string with _ | v
    · show (db.zip3_ses_map.filter (fun _ => false)).length ≤ 1
      simp
    · apply filter_length_le_one
      apply (nodup_map_pairwise hs).imp
      intro s1 s2 hne hand
      rcases hand with ⟨h1, h2⟩
      have e1 : v = s1.zip3_as_string := by simpa using h1
      have e2 : v = s2.zip3_as_string := by simpa using h2
      exact hne (e1 ▸ e2)

lemma demoJoins_length {db : Database} (hc : concept_unique db) :
    (demoJoins db).length = db.person.length := by
  unfold demoJoins
  rw [leftJoin_length _ _ _ _ (fun x => concept_filter_le_one hc _),
    leftJoin_length _ _ _ _ (fun x => concept_filter_le_one hc _),
    leftJoin_length _ _ _ _ (fun p => concept_filter_le_one hc _)]

lemma combinedJoins_length {db : Database} (hc : concept_unique db)
    (ho : obs_unique db) (hs : ses_unique db) :
    (combinedJoins db).length = db.person.length := by
  unfold combinedJoins
  rw [leftJoin_length _ _ _ _ (fun x => ses_filter_le_one hs _),
    leftJoin_length _ _ _ _ (fun x => obs_filter_le_one ho _),
    demoJoins_length hc]

/-- C1 — For every dataset in which the concept lookup, the SES lookup,
and the postal-prefix observation are unique-keyed on their join keys,
the combined (level-2) query returns exactly as many rows as the
demographics-only (level-1) query: the outer joins neither duplicate nor
drop any subject row. -/
theorem C1_combined_query_preserves_rowcount (db : Database)
    (hc : concept_unique db) (ho : obs_unique db) (hs : ses_unique db) :
    (sql_query_level2 db).length = (sql_query_level1 db).length := by
  unfold sql_query_level2 sql_query_level1
  rw [List.length_map, List.length_map, combinedJoins_length hc ho hs,
    demoJoins_length hc]

/-- A small concrete dataset with unique-keyed lookups: two persons, one
with full matches, one with no matches at all. -/
def exDb : Database :=
  { person := [⟨1, some 1980, some 10, some 20, some 30⟩,
               ⟨2, none, none, none, none⟩]
    concept := [⟨10, "Male"⟩, ⟨20, "White"⟩, ⟨30, "Not Hispanic"⟩]
    observation := [⟨1, 1585250, some "123"⟩, ⟨1, 999, some "123"⟩]
    zip3_ses_map := [⟨"123", some 50000, some 12, some 8⟩] }

/-- Witness for C1 at a concrete dataset. -/
theorem C1_combined_query_preserves_rowcount_app :
    (concept_unique exDb ∧ obs_unique exDb ∧ ses_unique exDb) ∧
      (sql_query_level2 exDb).length = (sql_query_level1 exDb).length :=
  ⟨⟨by decide, by decide, by decide⟩,
    C1_combined_query_preserves_rowcount exDb (by decide) (by decide) (by decide)⟩

lemma combinedJoins_mem {db : Database} {p : PersonRow} (hp : p ∈ db.person) :
    ∃ x ∈ combinedJoins db, x.1.1.1.1.1 = p := by
  obtain ⟨c1, hc1⟩ := leftJoin_mem db.concept
    (fun p c => p.sex_at_birth_concept_id == some c.concept_id)
    (fun p c => (p, c)) hp
  obtain ⟨c2, hc2⟩ := leftJoin_mem db.concept
    (fun x c => x.1.race_concept_id == some c.concept_id)
    (fun x c => (x, c)) hc1
  obtain ⟨c3, hc3⟩ := leftJoin_mem db.concept
    (fun x c => x.1.1.ethnicity_concept_id == some c.concept_id)
    (fun x c => (x, c)) hc2
  obtain ⟨o4, ho4⟩ := leftJoin_mem db.observation
    (fun x o => x.1.1.1.person_id == o.person_id
      && o.observation_source_concept_id == 1585250)
    (fun x o => (x, o)) hc3
  obtain ⟨s5, hs5⟩ := leftJoin_mem db.zip3_ses_map
    (fun x s =>
      match x.2 with
      | some o => o.value_as_string == some s.zip3_as_string
      | none => false)
    (fun x s => (x, s)) ho4
  exact ⟨_, hs5, rfl⟩

/-- A dataset on which the level-1 SES query drops a subject's
postal-prefix observation: the observation has no matching SES lookup
entry and the inner `JOIN` discards it. -/
def exDb2 : Database :=
  { person := [⟨1, some 1980, none, none, none⟩]
    concept := []
    observation := [⟨1, 1585250, some "999"⟩]
    zip3_ses_map := [] }

/-- C2 counterexample — the claim says every optional join of the query
builder, including the SES lookup join of `sql_query_ses`
(`level1_metadata_analysis.py` lines 116-129), uses LEFT semantics so
that unmatched subjects still appear with nulls.  On `exDb2` the subject
has a qualifying postal-prefix observation but no SES lookup match, and
`sql_query_ses` returns no row at all: the inner `JOIN` drops it. -/
theorem C2_ses_query_inner_join_drops :
    (exDb2.observation.filter
      (fun o => o.observation_source_concept_id == 1585250)).length = 1 ∧
      sql_query_ses exDb2 = [] := by
  exact ⟨rfl, rfl⟩

/-- C2 amended — the joins of the combined (level-2) query and the
concept joins of the demographics query do use LEFT semantics: every
person row yields at least one output row of the combined query bearing
its `person_id`, with nulls in unmatched fields; the level-1 SES query,
however, inner-joins the observation to the SES lookup and drops
unmatched rows. -/
theorem C2_combined_query_preserves_subjects (db : Database) (p : PersonRow)
    (hp : p ∈ db.person) :
    ∃ r ∈ sql_query_level2 db, r.person_id = p.person_id := by
  obtain ⟨x, hx, hxp⟩ := combinedJoins_mem hp
  refine ⟨_, List.mem_map_of_mem _ hx, ?_⟩
  show x.1.1.1.1.1.person_id = p.person_id
  rw [hxp]

/-- The fully-matched person of `exDb`. -/
def pW : PersonRow := ⟨1, some 1980, some 10, some 20, some 30⟩

/-- Witness for the amended C2 theorem at a concrete dataset. -/
theorem C2_combined_query_preserves_subjects_app :
    pW ∈ exDb.person ∧ ∃ r ∈ sql_query_level2 exDb, r.person_id = pW.person_id :=
  ⟨by decide, C2_combined_query_preserves_subjects exDb pW (by decide)⟩

/-- Fuel-driven helper for `uniqueFirst` (the fuel, at least the list
length at every recursive call, makes the recursion structural). -/
def uniqueFirstAux : Nat → List String → List String
  | _, [] => []
  | Nat.succ n, a :: l => a :: uniqueFirstAux n (l.filter (fun b => b != a))
  | 0, a :: l => a :: l

/-- `pandas.Series.unique`: distinct values in order of first
occurrence. -/
def uniqueFirst (l : List String) : List String :=
  uniqueFirstAux l.length l

lemma mem_uniqueFirstAux :
    ∀ (n : Nat) (l : List String), l.length ≤ n →
      ∀ a : String, a ∈ uniqueFirstAux n l ↔ a ∈ l := by
  intro n
  induction n with
  | zero =>
    intro l hl a
    rw [List.length_eq_zero.mp (Nat.le_zero.mp hl)]
    simp [uniqueFirstAux]
  | succ n ih =>
    intro l hl a
    cases l with
    | nil => simp [uniqueFirstAux]
    | cons x l =>
      have hlen : (l.filter (fun b => b != x)).length ≤ n := by
        have h1 := List.length_filter_le (fun b => b != x) l
        have h2 : l.length ≤ n := by
          simpa [List.length_cons, Nat.succ_le_succ_iff] using hl
        omega
      simp only [uniqueFirstAux, List.mem_cons, ih _ hlen a, List.mem_filter,
        bne_iff_ne, ne_eq]
      constructor
      · rintro (h | ⟨h, _⟩)
        · exact Or.inl h
        · exact Or.inr h
      · rintro (h | h)
        · exact Or.inl h
        · by_cases hx : a = x
          · exact Or.inl hx
          · exact Or.inr ⟨h, hx⟩

lemma mem_uniqueFirst {a : String} {l : List String} :
    a ∈ uniqueFirst l ↔ a ∈ l :=
  mem_uniqueFirstAux l.length l le_rfl a

lemma uniqueFirst_nodup_aux :
    ∀ (n : Nat) (l : List String), l.length ≤ n → (uniqueFirstAux n l).Nodup := by
  intro n
  induction n with
  | zero =>
    intro l hl
    rw [List.length_eq_zero.mp (Nat.le_zero.mp hl)]
    simp [uniqueFirstAux]
  | succ n ih =>
    intro l hl
    cases l with
    | nil => simp [uniqueFirstAux]
    | cons x l =>
      have hlen : (l.filter (fun b => b != x)).length ≤ n := by
        have h1 := List.length_filter_le (fun b => b != x) l
        have h2 : l.length ≤ n := by
          simpa [List.length_cons, Nat.succ_le_succ_iff] using hl
        omega
      simp only [uniqueFirstAux, List.nodup_cons]
      refine ⟨?_, ih _ hlen⟩
      intro hx
      have := (List.mem_filter.mp ((mem_uniqueFirstAux n _ hlen x).mp hx)).2
      simp at this

lemma uniqueFirst_nodup (l : List String) : (uniqueFirst l).Nodup :=
  uniqueFirst_nodup_aux l.length l le_rfl

/-- `level2_metadata_analysis.py` lines 104-105: for the income-by-race
test, drop rows with a null `race` or `median_income`, then remove the
sentinel category: `test_data = test_data[test_data['race'] !=
'No matching concept']`. -/
def test_data (df : List AnalysisRow) : List AnalysisRow :=
  (df.filter (fun r => r.race.isSome && r.median_income.isSome)).filter
    (fun r => r.race != some "No matching concept")

/-- `level2_metadata_analysis.py` line 108:
`groups = test_data['race'].unique()`. -/
def groups (df : List AnalysisRow) : List String :=
  uniqueFirst ((test_data df).filterMap (fun r => r.race))

/-- `level2_metadata_analysis.py` line 111: the per-group
`median_income` samples handed to the Kruskal-Wallis test. -/
def income_by_group (df : List AnalysisRow) : List (List Rat) :=
  (groups df).map (fun g =>
    ((test_data df).filter (fun r => r.race == some g)).filterMap
      (fun r => r.median_income))

/-- C3 — for every input row set, the group list built for the
income-by-race comparison (and hence the group set handed to the
rank-based test) never contains the excluded sentinel literal
`"No matching concept"`. -/
theorem C3_sentinel_never_in_groups (df : List AnalysisRow) :
    "No matching concept" ∉ groups df := by
  intro hmem
  have h1 : "No matching concept" ∈ (test_data df).filterMap (fun r => r.race) :=
    mem_uniqueFirst.mp hmem
  rcases List.mem_filterMap.mp h1 with ⟨r, hr, hrace⟩
  have h2 := (List.mem_filter.mp hr).2
  simp [hrace] at h2

/-- Python `f"{pvalue:.3f}"` for the nonnegative p-values the scripts
format (rational model; rounding of the half-way case differs from IEEE
binary floats but no claim depends on it). -/
def format3 (p : Rat) : String :=
  let q := p * 1000 + 1 / 2
  let n := (q.num / (q.den : Int)).toNat
  let frac := n % 1000
  let pad := if frac < 10 then "00" else if frac < 100 then "0" else ""
  toString (n / 1000) ++ "." ++ pad ++ toString frac

/-- `level2_metadata_analysis.py` lines 117-131: the Kruskal-Wallis
annotation text; significance is the strict comparison
`pvalue < 0.05`, and any `pvalue < 0.001` renders as the bounded string
rather than a formatted float. -/
def stat_text_kruskal (pvalue : Rat) : String :=
  if pvalue < 1 / 20 then
    "Statistically Significant Deviation\n(Kruskal-Wallis "
      ++ (if pvalue < 1 / 1000 then "p < 0.001"
          else "p = " ++ format3 pvalue) ++ ")"
  else
    "No Significant Deviation Found\n(Kruskal-Wallis p = "
      ++ format3 pvalue ++ ")"

/-- `level2_metadata_analysis.py` lines 268-282: the chi-square
annotation text, same structure as the Kruskal-Wallis one. -/
def stat_text_chi2 (pvalue : Rat) : String :=
  if pvalue < 1 / 20 then
    "Statistically Significant Difference\n(Chi-Square "
      ++ (if pvalue < 1 / 1000 then "p < 0.001"
          else "p = " ++ format3 pvalue) ++ ")"
  else
    "No Significant Difference Found\n(Chi-Square p = "
      ++ format3 pvalue ++ ")"

/-- C4 — any computed p-value below 0.001 is reported as the bounded
text `p < 0.001` (never a formatted small float), in both the
Kruskal-Wallis and the chi-square annotations; and the significance
verdict is the strict comparison against 0.05, so a p-value of exactly
0.05 renders as the not-significant text. -/
theorem C4_pvalue_format_and_strict_alpha (p : Rat) :
    (p < 1 / 1000 →
      stat_text_kruskal p =
        "Statistically Significant Deviation\n(Kruskal-Wallis p < 0.001)" ∧
      stat_text_chi2 p =
        "Statistically Significant Difference\n(Chi-Square p < 0.001)") ∧
    stat_text_kruskal (1 / 20) =
      "No Significant Deviation Found\n(Kruskal-Wallis p = 0.050)" ∧
    stat_text_chi2 (1 / 20) =
      "No Significant Difference Found\n(Chi-Square p = 0.050)" := by
  refine ⟨?_, by decide, by decide⟩
  intro hp
  have h5 : p < 1 / 20 := lt_trans hp (by norm_num)
  constructor
  · unfold stat_text_kruskal
    rw [if_pos h5, if_pos hp]
    decide
  · unfold stat_text_chi2
    rw [if_pos h5, if_pos hp]
    decide

/-- Witness for C4 at the concrete p-value 1/2000. -/
theorem C4_pvalue_format_and_strict_alpha_app :
    ((1 : Rat) / 2000 < 1 / 1000) ∧
      stat_text_kruskal ((1 : Rat) / 2000) =
        "Statistically Significant Deviation\n(Kruskal-Wallis p < 0.001)" :=
  ⟨by norm_num,
    ((C4_pvalue_format_and_strict_alpha ((1 : Rat) / 2000)).1 (by norm_num)).1⟩

/-- Python's rendering of `cdr_dataset_id` inside an f-string: an unset
environment variable (`os.environ.get` returning `None`) renders as the
literal text `None`. -/
def py_fstring_render : Option String → String
  | some s => s
  | none => "None"

/-- The `if cdr_dataset_id:` branch at the top of both scripts
(`level1_metadata_analysis.py` lines 17-22, `level2_metadata_analysis.py`
lines 18-22): it only prints a message and never stops the script. -/
def setup_message : Option String → String
  | some s => "Querying CDR: " ++ s
  | none => "Error: WORKSPACE_CDR environment variable not set."

/-- The level-1 `sql_query` f-string (lines 34-48) as a function of the
rendered dataset identifier. -/
def sql_query_text_level1 (d : String) : String :=
  "\nSELECT\n    (2025 - p.year_of_birth) AS age,\n    c_sex.concept_name AS sex_at_birth,\n    c_race.concept_name AS race,\n    c_eth.concept_name AS ethnicity\nFROM\n    `"
  ++ d ++ ".person` p\nLEFT JOIN\n    `"
  ++ d ++ ".concept` c_sex ON p.sex_at_birth_concept_id = c_sex.concept_id\nLEFT JOIN\n    `"
  ++ d ++ ".concept` c_race ON p.race_concept_id = c_race.concept_id\nLEFT JOIN\n    `"
  ++ d ++ ".concept` c_eth ON p.ethnicity_concept_id = c_eth.concept_id\n"

/-- The level-2 `sql_query` f-string (lines 32-58) as a function of the
rendered dataset identifier. -/
def sql_query_text_level2 (d : String) : String :=
  "\nSELECT\n    p.person_id,\n    (2025 - p.year_of_birth) AS age,\n    c_sex.concept_name AS sex_at_birth,\n    c_race.concept_name AS race,\n    c_eth.concept_name AS ethnicity,\n    ses.median_income,\n    ses.fraction_poverty,\n    ses.fraction_no_health_ins\nFROM\n    `"
  ++ d ++ ".person` p\nLEFT JOIN\n    `"
  ++ d ++ ".concept` c_sex ON p.sex_at_birth_concept_id = c_sex.concept_id\nLEFT JOIN\n    `"
  ++ d ++ ".concept` c_race ON p.race_concept_id = c_race.concept_id\nLEFT JOIN\n    `"
  ++ d ++ ".concept` c_eth ON p.ethnicity_concept_id = c_eth.concept_id\nLEFT JOIN\n    `"
  ++ d ++ ".observation` AS obs\nON\n    p.person_id = obs.person_id AND obs.observation_source_concept_id = 1585250 -- 1585250 is the concept ID for 3-digit ZIP\nLEFT JOIN\n    `"
  ++ d ++ ".zip3_ses_map` AS ses\nON\n    obs.value_as_string = ses.zip3_as_string\n"

/-- Both scripts assign their `sql_query` f-string unconditionally at
module scope, whatever `cdr_dataset_id` holds; `some` records that a
query string is constructed. -/
def built_sql_query_level1 (cdr_dataset_id : Option String) : Option String :=
  some (sql_query_text_level1 (py_fstring_render cdr_dataset_id))

/-- As `built_sql_query_level1`, for the level-2 script. -/
def built_sql_query_level2 (cdr_dataset_id : Option String) : Option String :=
  some (sql_query_text_level2 (py_fstring_render cdr_dataset_id))

/-- C5 counterexample — the claim says that with the dataset identifier
absent the builder refuses: no query string is constructed.  Both
scripts construct their query string anyway. -/
theorem C5_query_built_despite_unset_env :
    built_sql_query_level1 none ≠ none ∧ built_sql_query_level2 none ≠ none := by
  constructor <;> simp [built_sql_query_level1, built_sql_query_level2]

/-- C5 amended — when the environment variable is unset, the scripts
print an error message but still construct their query strings, with
Python's `None` rendered as the dataset identifier, and proceed to
execution. -/
theorem C5_unset_env_prints_error_and_builds_query :
    setup_message none = "Error: WORKSPACE_CDR environment variable not set." ∧
    built_sql_query_level1 none = some (sql_query_text_level1 "None") ∧
    built_sql_query_level2 none = some (sql_query_text_level2 "None") :=
  ⟨rfl, rfl, rfl⟩

/-- The average (mid-) rank of value `v` within the pooled sample `all`,
as used by `scipy.stats.rankdata` for tied observations. -/
def tieRank (all : List Rat) (v : Rat) : Rat :=
  ((all.countP (fun x => decide (x < v))) : Rat)
    + (((all.countP (fun x => decide (x = v))) : Rat) + 1) / 2

/-- Model of `scipy.stats.kruskal` (an external library the script
delegates to): with fewer than two sample groups it raises
`ValueError("Need at least two groups in stats.kruskal()")`, with all
pooled values identical it raises
`ValueError("All numbers are identical in kruskal")`, and otherwise it
returns the tie-corrected H statistic together with the chi-square
survival-function p-value.  The transcendental chi-square tail is passed
in as the external function `chi2sf`. -/
def kruskal (chi2sf : Rat → Nat → Rat) (gs : List (List Rat)) :
    Except String (Rat × Rat) :=
  if gs.length < 2 then .error "Need at least two groups in stats.kruskal()"
  else
    let all := gs.flatten
    let n : Rat := (all.length : Rat)
    let tieSum :=
      (all.map (fun v => ((all.countP (fun x => decide (x = v))) : Rat) ^ 2 - 1)).sum
    let d := 1 - tieSum / (n ^ 3 - n)
    if d = 0 then .error "All numbers are identical in kruskal"
    else
      let s := (gs.map (fun g =>
        ((g.map (tieRank all)).sum) ^ 2 / (g.length : Rat))).sum
      let h := (12 / (n * (n + 1)) * s - 3 * (n + 1)) / d
      .ok (h, chi2sf h (gs.length - 1))

/-- `level2_metadata_analysis.py` lines 151-153: the label replacement
applied to one row:
`df_analysis['ethnicity'].replace(long_label, short_label)`. -/
def relabel_row (r : AnalysisRow) : AnalysisRow :=
  if r.ethnicity == some "What Race Ethnicity: Race Ethnicity None Of These"
  then { r with ethnicity := some "None Of These" }
  else r

/-- `level2_metadata_analysis.py` line 153: the in-place update of the
shared `df_analysis` row set, replacing the long ethnicity label with
the short one before the poverty-by-ethnicity analysis. -/
def relabel_ethnicity (df : List AnalysisRow) : List AnalysisRow :=
  df.map relabel_row

/-- `level2_metadata_analysis.py` line 175:
`test_data_eth = df_analysis.dropna(subset=['ethnicity',
'fraction_poverty'])`. -/
def test_data_eth (df : List AnalysisRow) : List AnalysisRow :=
  df.filter (fun r => r.ethnicity.isSome && r.fraction_poverty.isSome)

/-- `level2_metadata_analysis.py` line 178:
`groups_eth = test_data_eth['ethnicity'].unique()`.  The group set of
the Dunn post-hoc test (`sp.posthoc_dunn`, lines 220-223) is the same
set of labels (`numpy.unique` returns it sorted; no claim depends on
the order). -/
def groups_eth (df : List AnalysisRow) : List String :=
  uniqueFirst ((test_data_eth df).filterMap (fun r => r.ethnicity))

/-- `level2_metadata_analysis.py` line 181: the per-group
`fraction_poverty` samples handed to the Kruskal-Wallis test. -/
def poverty_by_group (df : List AnalysisRow) : List (List Rat) :=
  (groups_eth df).map (fun g =>
    ((test_data_eth df).filter (fun r => r.ethnicity == some g)).filterMap
      (fun r => r.fraction_poverty))

/-- The groupby keys of `df_analysis.groupby('race')`
(`level2_metadata_analysis.py` line 242): distinct non-null race values
(pandas drops null group keys; it sorts them, which no claim depends
on). -/
def race_keys (df : List AnalysisRow) : List String :=
  uniqueFirst (df.filterMap (fun r => r.race))

/-- The number of rows of a race group. -/
def group_size (df : List AnalysisRow) (g : String) : Nat :=
  (df.filter (fun r => r.race == some g)).length

/-- The number of rows of a race group whose `median_income` is null. -/
def group_missing (df : List AnalysisRow) (g : String) : Nat :=
  (df.filter (fun r => r.race == some g && r.median_income.isNone)).length

/-- `x.isnull().mean()` for one race group (line 242). -/
def missing_mean (df : List AnalysisRow) (g : String) : Rat :=
  (group_missing df g : Rat) / (group_size df g : Rat)

/-- `level2_metadata_analysis.py` line 242: `missing_data =
df_analysis.groupby('race')['median_income'].apply(lambda x:
x.isnull().mean() * 100)`. -/
def missing_data (df : List AnalysisRow) : List (String × Rat) :=
  (race_keys df).map (fun g => (g, missing_mean df g * 100))

/-- `level2_metadata_analysis.py` line 257: the derived
`ses_data_missing` column, `df_analysis['median_income'].isnull()`. -/
def ses_data_missing (r : AnalysisRow) : Bool :=
  r.median_income.isNone

/-- `level2_metadata_analysis.py` line 261: `pd.crosstab(
df_analysis['race'], df_analysis['ses_data_missing'])` — per non-null
race value, the counts of not-missing and missing rows. -/
def contingency_table (df : List AnalysisRow) : List (String × Nat × Nat) :=
  (race_keys df).map (fun g =>
    (g, (df.filter (fun r => r.race == some g && !(ses_data_missing r))).length,
        (df.filter (fun r => r.race == some g && ses_data_missing r)).length))

/-- Model of `scipy.stats.chi2_contingency` (external library) on a k×2
table: Pearson statistic with Yates continuity correction in the 2×2
case, degrees of freedom `k - 1`; a zero row or column margin (or an
empty table) makes an expected frequency zero, which scipy rejects with
a `ValueError`. -/
def chi2_contingency (tbl : List (String × Nat × Nat)) :
    Except String (Rat × Nat) :=
  let c1 := (tbl.map (fun x => x.2.1)).sum
  let c2 := (tbl.map (fun x => x.2.2)).sum
  let total := c1 + c2
  if tbl.isEmpty || c1 == 0 || c2 == 0 || tbl.any (fun x => x.2.1 + x.2.2 == 0) then
    .error "The internally computed table of expected frequencies has a zero element."
  else
    let stat := (tbl.map (fun x =>
      let rt : Rat := ((x.2.1 + x.2.2 : Nat) : Rat)
      let e1 : Rat := rt * (c1 : Rat) / (total : Rat)
      let e2 : Rat := rt * (c2 : Rat) / (total : Rat)
      if tbl.length = 2 then
        (|(x.2.1 : Rat) - e1| - mkRat 1 2) ^ 2 / e1
          + (|(x.2.2 : Rat) - e2| - mkRat 1 2) ^ 2 / e2
      else
        ((x.2.1 : Rat) - e1) ^ 2 / e1 + ((x.2.2 : Rat) - e2) ^ 2 / e2)).sum
    .ok (stat, tbl.length - 1)

/-- Everything the level-2 script's analysis section computes from
`df_analysis`. -/
structure Level2Report where
  race_groups : List String
  income_test : Rat × Rat
  income_text : String
  eth_groups : List String
  poverty_test : Rat × Rat
  poverty_text : String
  dunn_groups : List String
  missing_by_race : List (String × Rat)
  chi2_result : Rat × Rat
  chi2_text : String
deriving DecidableEq

/-- The straight-line analysis section of `level2_metadata_analysis.py`
(lines 75-294) run on a loaded `df_analysis`: income-by-race
Kruskal-Wallis, the in-place ethnicity relabel, poverty-by-ethnicity
Kruskal-Wallis, the Dunn group set, the missingness-by-race summary and
the chi-square independence test, in script order.  A `ValueError`
raised by a library call is uncaught in the script, so it aborts
everything after it: the `Except` chain stops at the first error. -/
def level2_downstream (chi2sf : Rat → Nat → Rat) (df : List AnalysisRow) :
    Except String Level2Report :=
  match kruskal chi2sf (income_by_group df) with
  | .error e => .error e
  | .ok kp1 =>
    let df2 := relabel_ethnicity df
    match kruskal chi2sf (poverty_by_group df2) with
    | .error e => .error e
    | .ok kp2 =>
      match chi2_contingency (contingency_table df2) with
      | .error e => .error e
      | .ok cp =>
        .ok { race_groups := groups df
              income_test := kp1
              income_text := stat_text_kruskal kp1.2
              eth_groups := groups_eth df2
              poverty_test := kp2
              poverty_text := stat_text_kruskal kp2.2
              dunn_groups := groups_eth df2
              missing_by_race := missing_data df2
              chi2_result := (cp.1, chi2sf cp.1 cp.2)
              chi2_text := stat_text_chi2 (chi2sf cp.1 cp.2) }

/-- The `try/except` around query execution in both scripts
(`level1_metadata_analysis.py` lines 52-64, `level2_metadata_analysis.py`
lines 61-72): on success the loaded rows, on any exception an empty
DataFrame. -/
def load_dataframe {α : Type} : Except String (List α) → List α
  | .ok t => t
  | .error _ => []

/-- A trivial stand-in for the external chi-square survival function in
concrete evaluations (no claim depends on its values). -/
def czero : Rat → Nat → Rat := fun _ _ => 0

/-- A row set whose test data has a single race group. -/
def df_single_race : List AnalysisRow :=
  [⟨1, some 45, some "Male", some "White", some "Not Hispanic",
     some 50000, some 12, some 8⟩,
   ⟨2, some 50, some "Female", some "White", some "Not Hispanic",
     some 60000, some 14, some 9⟩]

/-- C6 counterexample — on a row set with a single race group the script
does not signal a skipped comparison: the `stats.kruskal` call raises
`ValueError("Need at least two groups in stats.kruskal()")`, the script
has no handler, and the run aborts (nothing after the call is
computed). -/
theorem C6_single_group_uncaught_error :
    level2_downstream czero df_single_race =
      .error "Need at least two groups in stats.kruskal()" := by
  rfl

/-- C6 amended — whenever fewer than two distinct group values remain
after the null-dropping and sentinel exclusion, the script does not run
the rank-based test: the library call errors with "Need at least two
groups" and, being uncaught, aborts the whole downstream run (no
skipped-comparison report, no `InsufficientGroupsError`). -/
theorem C6_too_few_groups_aborts_run (chi2sf : Rat → Nat → Rat)
    (df : List AnalysisRow) (h : (groups df).length < 2) :
    level2_downstream chi2sf df =
      .error "Need at least two groups in stats.kruskal()" := by
  have hlen : (income_by_group df).length < 2 := by
    simpa [income_by_group] using h
  have hkr : kruskal chi2sf (income_by_group df) =
      .error "Need at least two groups in stats.kruskal()" := by
    unfold kruskal
    rw [if_pos hlen]
  unfold level2_downstream
  rw [hkr]

/-- Witness for the amended C6 theorem at a concrete row set. -/
theorem C6_too_few_groups_aborts_run_app :
    (groups df_single_race).length < 2 ∧
      level2_downstream czero df_single_race =
        .error "Need at least two groups in stats.kruskal()" :=
  ⟨by decide, C6_too_few_groups_aborts_run czero df_single_race (by decide)⟩

/-- C7 — on any query failure the scripts substitute an empty DataFrame
for the result and continue past the failure; the downstream analysis
section is then entered with the empty data, but its first group
comparison fails on it (there are no groups), and since that error is
uncaught the remaining analyses are never attempted: the run still
aborts, contrary to the substitution's stated purpose of avoiding
further errors. -/
theorem C7_query_failure_empty_then_downstream_abort (e : String) :
    load_dataframe (Except.error e : Except String (List AnalysisRow)) = [] ∧
      level2_downstream czero (load_dataframe (Except.error e)) =
        level2_downstream czero [] ∧
      level2_downstream czero (load_dataframe (Except.error e)) =
        .error "Need at least two groups in stats.kruskal()" :=
  ⟨rfl, rfl, rfl⟩

/-- The claim's weighted sum: each per-group percentage reported by
`missing_data`, turned back into a fraction, weighted by its group's
share of the full row set. -/
def weighted_missing_sum (df : List AnalysisRow) : Rat :=
  ((missing_data df).map (fun gm =>
    ((group_size df gm.1 : Rat) / (df.length : Rat)) * (gm.2 / 100))).sum

/-- The overall fraction of rows of the full row set whose
`median_income` is null. -/
def overall_missing_frac (df : List AnalysisRow) : Rat :=
  ((df.filter (fun r => r.median_income.isNone)).length : Rat) / (df.length : Rat)

lemma group_size_ne_zero_of_mem {df : List AnalysisRow} {g : String}
    (hg : g ∈ race_keys df) : group_size df g ≠ 0 := by
  unfold race_keys at hg
  obtain ⟨r, hr, hrg⟩ := List.mem_filterMap.mp (mem_uniqueFirst.mp hg)
  have hmem : r ∈ df.filter (fun r => r.race == some g) :=
    List.mem_filter.mpr ⟨hr, by simp [hrg]⟩
  unfold group_size
  intro h0
  exact List.ne_nil_of_mem hmem (List.length_eq_zero.mp h0)

lemma sum_map_add_nat {α : Type} (f h2 : α → Nat) :
    ∀ l : List α, (l.map (fun x => f x + h2 x)).sum
      = (l.map f).sum + (l.map h2).sum := by
  intro l
  induction l with
  | nil => rfl
  | cons a l ih =>
    simp only [List.map_cons, List.sum_cons, ih]
    omega

lemma sum_indicator_zero (w : Nat) (g0 : String) :
    ∀ ks : List String, g0 ∉ ks →
      (ks.map (fun g => if g = g0 then w else 0)).sum = 0 := by
  intro ks
  induction ks with
  | nil => intro _; rfl
  | cons k ks ih =>
    intro hg
    have hk : ¬(k = g0) := fun e => hg (e ▸ List.mem_cons_self k ks)
    simp [List.map_cons, List.sum_cons, hk,
      ih (fun hm => hg (List.mem_cons_of_mem _ hm))]

lemma sum_indicator_one (w : Nat) (g0 : String) :
    ∀ ks : List String, ks.Nodup → g0 ∈ ks →
      (ks.map (fun g => if g = g0 then w else 0)).sum = w := by
  intro ks
  induction ks with
  | nil => intro _ h; cases h
  | cons k ks ih =>
    intro hnd hg
    rcases List.nodup_cons.mp hnd with ⟨hk, hnd'⟩
    by_cases he : k = g0
    · subst he
      simp [List.map_cons, List.sum_cons, sum_indicator_zero w k ks hk]
    · have hg' : g0 ∈ ks := by
        rcases List.mem_cons.mp hg with h | h
        · exact absurd h.symm he
        · exact h
      simp [List.map_cons, List.sum_cons, he, ih hnd' hg']

/-- Partitioning a count over unique group keys: when every counted row
carries a group key from `ks`, the per-key counts sum to the overall
count. -/
lemma sum_filter_by_key (p : AnalysisRow → Bool) (ks : List String)
    (hnd : ks.Nodup) :
    ∀ df : List AnalysisRow,
      (∀ r ∈ df, p r = true → ∃ g ∈ ks, r.race = some g) →
      (ks.map (fun g =>
        (df.filter (fun r => r.race == some g && p r)).length)).sum
        = (df.filter p).length := by
  intro df
  induction df with
  | nil => intro _; simp
  | cons r rest ih =>
    intro hcov
    have ihr := ih (fun r' h' hp' => hcov r' (List.mem_cons_of_mem _ h') hp')
    by_cases hp : p r = true
    · obtain ⟨g0, hg0, hrg⟩ := hcov r (List.mem_cons_self r rest) hp
      have hsplit : ∀ g ∈ ks,
          ((r :: rest).filter (fun r' => r'.race == some g && p r')).length
            = (if g = g0 then 1 else 0)
              + (rest.filter (fun r' => r'.race == some g && p r')).length := by
        intro g _
        by_cases he : g = g0
        · rw [he]
          simp only [List.filter_cons, hrg, hp, Bool.and_true, beq_iff_eq,
            Option.some.injEq]
          simp [List.length_cons]
          omega
        · have he' : ¬(g0 = g) := fun e => he e.symm
          simp only [List.filter_cons, hrg, hp, Bool.and_true, beq_iff_eq,
            Option.some.injEq]
          simp [he, he']
      rw [List.map_congr_left hsplit, sum_map_add_nat,
        sum_indicator_one 1 g0 ks hnd hg0, ihr, List.filter_cons, if_pos hp,
        List.length_cons]
      omega
    · have hpf : p r = false := by
        cases hpr : p r
        · rfl
        · exact absurd hpr hp
      have hsplit : ∀ g ∈ ks,
          ((r :: rest).filter (fun r' => r'.race == some g && p r')).length
            = (rest.filter (fun r' => r'.race == some g && p r')).length := by
        intro g _
        rw [List.filter_cons]
        have hc : (r.race == some g && p r) = false := by simp [hpf]
        simp [hc]
      rw [List.map_congr_left hsplit, ihr, List.filter_cons]
      simp [hpf]

/-- The per-group missing counts over the non-null group keys sum to the
overall missing count, provided every row has a non-null race. -/
lemma sum_group_missing (df : List AnalysisRow)
    (h : ∀ r ∈ df, r.race.isSome = true) :
    ((race_keys df).map (fun g => group_missing df g)).sum
      = (df.filter (fun r => r.median_income.isNone)).length := by
  have hcov : ∀ r ∈ df, r.median_income.isNone = true →
      ∃ g ∈ race_keys df, r.race = some g := by
    intro r hr _
    rcases Option.isSome_iff_exists.mp (h r hr) with ⟨g, hg⟩
    refine ⟨g, ?_, hg⟩
    exact mem_uniqueFirst.mpr (List.mem_filterMap.mpr ⟨r, hr, by rw [hg]⟩)
  simpa only [group_missing] using
    sum_filter_by_key (fun r => r.median_income.isNone) (race_keys df)
      (uniqueFirst_nodup _) df hcov

lemma sum_map_div_rat {α : Type} (f : α → Rat) (c : Rat) :
    ∀ l : List α, (l.map (fun x => f x / c)).sum = (l.map f).sum / c := by
  intro l
  induction l with
  | nil => simp
  | cons a l ih => simp [List.map_cons, List.sum_cons, ih, add_div]

lemma sum_map_natCast {α : Type} (f : α → Nat) :
    ∀ l : List α, (l.map (fun x => ((f x : Nat) : Rat))).sum
      = (((l.map f).sum : Nat) : Rat) := by
  intro l
  induction l with
  | nil => simp
  | cons a l ih => simp [List.map_cons, List.sum_cons, ih]

/-- C8 amended — provided every row carries a non-null group (race)
value, the per-group missing fractions of `missing_data`, weighted by
group size over the total row count, sum to the overall missing
fraction.  (The unrestricted claim fails: rows with a null race belong
to no pandas group, see the counterexample.) -/
theorem C8_weighted_missingness_identity (df : List AnalysisRow)
    (h : ∀ r ∈ df, r.race.isSome = true) :
    weighted_missing_sum df = overall_missing_frac df := by
  unfold weighted_missing_sum overall_missing_frac missing_data
  rw [List.map_map]
  have hpoint : ∀ g ∈ race_keys df,
      ((fun gm : String × Rat =>
          ((group_size df gm.1 : Rat) / (df.length : Rat)) * (gm.2 / 100))
        ∘ (fun g => (g, missing_mean df g * 100))) g
        = ((group_missing df g : Nat) : Rat) / (df.length : Rat) := by
    intro g hg
    have hs : ((group_size df g : Nat) : Rat) ≠ 0 :=
      Nat.cast_ne_zero.mpr (group_size_ne_zero_of_mem hg)
    show ((group_size df g : Rat) / (df.length : Rat))
        * ((missing_mean df g * 100) / 100)
        = ((group_missing df g : Nat) : Rat) / (df.length : Rat)
    rw [mul_div_cancel_right₀ _ (by norm_num : (100 : Rat) ≠ 0)]
    unfold missing_mean
    rw [div_mul_div_comm,
      mul_comm ((df.length : Nat) : Rat) ((group_size df g : Nat) : Rat),
      mul_div_mul_left _ _ hs]
  rw [List.map_congr_left hpoint,
    sum_map_div_rat (fun g => ((group_missing df g : Nat) : Rat)),
    sum_map_natCast (fun g => group_missing df g), sum_group_missing df h]

/-- A row set with a single row whose race and income are both null: the
row belongs to no group, so the per-group fractions see nothing. -/
def df_null_race : List AnalysisRow :=
  [⟨1, none, none, none, none, none, none, none⟩]

/-- C8 counterexample — on `df_null_race` the group-weighted sum is 0
but the overall missing fraction over the full row set is 1: rows with
a null group value are dropped by the groupby, so the claimed identity
fails on the full row set. -/
theorem C8_null_group_counterexample :
    weighted_missing_sum df_null_race = 0 ∧
      overall_missing_frac df_null_race = 1 ∧
      weighted_missing_sum df_null_race ≠ overall_missing_frac df_null_race := by
  refine ⟨by decide, by decide, by decide⟩

/-- A concrete row set with two race groups and mixed missingness. -/
def df_two_groups : List AnalysisRow :=
  [⟨1, none, none, some "A", none, some 100, none, none⟩,
   ⟨2, none, none, some "A", none, none, none, none⟩,
   ⟨3, none, none, some "B", none, none, none, none⟩]

/-- Witness for the amended C8 theorem at a concrete row set. -/
theorem C8_weighted_missingness_identity_app :
    (∀ r ∈ df_two_groups, r.race.isSome = true) ∧
      weighted_missing_sum df_two_groups = overall_missing_frac df_two_groups :=
  ⟨by decide, C8_weighted_missingness_identity df_two_groups (by decide)⟩

lemma relabel_row_race (r : AnalysisRow) : (relabel_row r).race = r.race := by
  unfold relabel_row
  split <;> rfl

lemma relabel_row_income (r : AnalysisRow) :
    (relabel_row r).median_income = r.median_income := by
  unfold relabel_row
  split <;> rfl

lemma relabel_row_poverty (r : AnalysisRow) :
    (relabel_row r).fraction_poverty = r.fraction_poverty := by
  unfold relabel_row
  split <;> rfl

/-- A filter whose predicate is blind to the ethnicity column commutes
with the in-place relabel. -/
lemma filter_relabel_comm (p : AnalysisRow → Bool)
    (hp : ∀ r, p (relabel_row r) = p r) (df : List AnalysisRow) :
    (relabel_ethnicity df).filter p = relabel_ethnicity (df.filter p) := by
  unfold relabel_ethnicity
  rw [List.filter_map]
  congr 1
  exact List.filter_congr (fun r _ => hp r)

lemma length_filter_relabel (p : AnalysisRow → Bool)
    (hp : ∀ r, p (relabel_row r) = p r) (df : List AnalysisRow) :
    ((relabel_ethnicity df).filter p).length = (df.filter p).length := by
  rw [filter_relabel_comm p hp]
  exact List.length_map _ _

lemma filterMap_race_relabel (df : List AnalysisRow) :
    (relabel_ethnicity df).filterMap (fun r => r.race)
      = df.filterMap (fun r => r.race) := by
  unfold relabel_ethnicity
  rw [List.filterMap_map]
  have hfun : ((fun r : AnalysisRow => r.race) ∘ relabel_row)
      = (fun r : AnalysisRow => r.race) :=
    funext (fun r => relabel_row_race r)
  rw [hfun]

lemma filterMap_income_relabel (df : List AnalysisRow) :
    (relabel_ethnicity df).filterMap (fun r => r.median_income)
      = df.filterMap (fun r => r.median_income) := by
  unfold relabel_ethnicity
  rw [List.filterMap_map]
  have hfun : ((fun r : AnalysisRow => r.median_income) ∘ relabel_row)
      = (fun r : AnalysisRow => r.median_income) :=
    funext (fun r => relabel_row_income r)
  rw [hfun]

lemma test_data_relabel (df : List AnalysisRow) :
    test_data (relabel_ethnicity df) = relabel_ethnicity (test_data df) := by
  unfold test_data
  rw [filter_relabel_comm _ (fun r => by
    rw [relabel_row_race, relabel_row_income])]
  rw [filter_relabel_comm _ (fun r => by rw [relabel_row_race])]

lemma groups_relabel (df : List AnalysisRow) :
    groups (relabel_ethnicity df) = groups df := by
  unfold groups
  rw [test_data_relabel, filterMap_race_relabel]

lemma group_size_relabel (df : List AnalysisRow) (g : String) :
    group_size (relabel_ethnicity df) g = group_size df g := by
  unfold group_size
  exact length_filter_relabel _ (fun r => by rw [relabel_row_race]) df

lemma group_missing_relabel (df : List AnalysisRow) (g : String) :
    group_missing (relabel_ethnicity df) g = group_missing df g := by
  unfold group_missing
  exact length_filter_relabel _ (fun r => by
    rw [relabel_row_race, relabel_row_income]) df

lemma race_keys_relabel (df : List AnalysisRow) :
    race_keys (relabel_ethnicity df) = race_keys df := by
  unfold race_keys
  rw [filterMap_race_relabel]

lemma missing_data_relabel (df : List AnalysisRow) :
    missing_data (relabel_ethnicity df) = missing_data df := by
  unfold missing_data missing_mean
  rw [race_keys_relabel]
  exact List.map_congr_left (fun g _ => by
    rw [group_size_relabel, group_missing_relabel])

lemma contingency_table_relabel (df : List AnalysisRow) :
    contingency_table (relabel_ethnicity df) = contingency_table df := by
  unfold contingency_table
  rw [race_keys_relabel]
  refine List.map_congr_left (fun g _ => ?_)
  have h1 := length_filter_relabel
    (fun r => r.race == some g && !(ses_data_missing r))
    (fun r => by
      simp only [ses_data_missing, relabel_row_race, relabel_row_income]) df
  have h2 := length_filter_relabel
    (fun r => r.race == some g && ses_data_missing r)
    (fun r => by
      simp only [ses_data_missing, relabel_row_race, relabel_row_income]) df
  rw [h1, h2]

lemma income_by_group_relabel (df : List AnalysisRow) :
    income_by_group (relabel_ethnicity df) = income_by_group df := by
  unfold income_by_group
  rw [groups_relabel]
  refine List.map_congr_left (fun g _ => ?_)
  rw [test_data_relabel,
    filter_relabel_comm _ (fun r => by rw [relabel_row_race]),
    filterMap_income_relabel]

/-- A row set holding the long ethnicity label with a non-null poverty
value. -/
def df_long_label : List AnalysisRow :=
  [⟨1, none, none, none,
     some "What Race Ethnicity: Race Ethnicity None Of These",
     none, some 10, none⟩]

/-- C9 counterexample — the Reporter operations do not all commute: the
script's in-place ethnicity relabel (line 153) changes the shared row
set, so the ethnicity group set computed after the update differs from
the one computed before it.  Running the poverty-by-ethnicity grouping
before versus after the relabel yields different results. -/
theorem C9_relabel_mutation_counterexample :
    groups_eth (relabel_ethnicity df_long_label) ≠ groups_eth df_long_label := by
  decide

/-- C9 amended — each analytic operation is a pure function of the row
set value it receives, but the script mutates the shared row set (the
ethnicity relabel at line 153 and the `ses_data_missing` column at line
257); ethnicity-based results are order-sensitive around the relabel
(see the counterexample), while every race-based operation (income
grouping, missingness summary, contingency table) is invariant under
it. -/
theorem C9_race_analyses_invariant_under_relabel (df : List AnalysisRow) :
    groups (relabel_ethnicity df) = groups df ∧
    income_by_group (relabel_ethnicity df) = income_by_group df ∧
    missing_data (relabel_ethnicity df) = missing_data df ∧
    contingency_table (relabel_ethnicity df) = contingency_table df :=
  ⟨groups_relabel df, income_by_group_relabel df, missing_data_relabel df,
    contingency_table_relabel df⟩

lemma relabel_row_eth_ne_long (r : AnalysisRow) :
    (relabel_row r).ethnicity
      ≠ some "What Race Ethnicity: Race Ethnicity None Of These" := by
  unfold relabel_row
  by_cases h : (r.ethnicity
      == some "What Race Ethnicity: Race Ethnicity None Of These") = true
  · rw [if_pos h]
    simp
  · rw [if_neg h]
    intro he
    exact h (by rw [he]; rfl)

/-- C10 amended — after the in-place replacement the ethnicity group
set used by the poverty comparison and the Dunn post-hoc test never
contains the long label; it contains the short label `"None Of These"`
provided some row carrying the long label also has a non-null
`fraction_poverty` (a row whose poverty value is null is removed by the
dropna and contributes no group, which is what refutes the original
claim). -/
theorem C10_relabel_group_membership (df : List AnalysisRow) :
    "What Race Ethnicity: Race Ethnicity None Of These"
        ∉ groups_eth (relabel_ethnicity df) ∧
      ∀ r ∈ df,
        r.ethnicity = some "What Race Ethnicity: Race Ethnicity None Of These" →
        r.fraction_poverty.isSome = true →
        "None Of These" ∈ groups_eth (relabel_ethnicity df) := by
  constructor
  · intro hmem
    obtain ⟨r', hr', hre⟩ := List.mem_filterMap.mp (mem_uniqueFirst.mp hmem)
    obtain ⟨r0, _, hr0⟩ := List.mem_map.mp (List.mem_filter.mp hr').1
    exact relabel_row_eth_ne_long r0 (by rw [hr0]; exact hre)
  · intro r hr heth hpov
    have he : (relabel_row r).ethnicity = some "None Of These" := by
      unfold relabel_row
      rw [if_pos (by rw [heth]; rfl)]
    apply mem_uniqueFirst.mpr
    apply List.mem_filterMap.mpr
    refine ⟨relabel_row r, List.mem_filter.mpr
      ⟨List.mem_map_of_mem _ hr, ?_⟩, he⟩
    simp [he, relabel_row_poverty, hpov]

/-- A row set whose only long-label row has a null poverty value. -/
def df_label_null_poverty : List AnalysisRow :=
  [⟨1, none, none, none,
     some "What Race Ethnicity: Race Ethnicity None Of These",
     none, none, none⟩]

/-- C10 counterexample — the input row set contains the long ethnicity
label, yet the group set used by the poverty-by-ethnicity comparison
after the replacement is empty: the relabeled row is removed by the
dropna because its poverty value is null, so the group set does not
contain `"None Of These"`, contrary to the claim. -/
theorem C10_null_poverty_drops_label :
    (df_label_null_poverty.map (fun r => r.ethnicity))
        = [some "What Race Ethnicity: Race Ethnicity None Of These"] ∧
      groups_eth (relabel_ethnicity df_label_null_poverty) = [] ∧
      "None Of These" ∉ groups_eth (relabel_ethnicity df_label_null_poverty) := by
  exact ⟨rfl, rfl, by decide⟩

/-- A row set whose long-label row carries a non-null poverty value. -/
def df_label_with_poverty : List AnalysisRow :=
  [⟨1, none, none, none,
     some "What Race Ethnicity: Race Ethnicity None Of These",
     none, some 5, none⟩]

/-- Witness for the amended C10 theorem at a concrete row set. -/
theorem C10_relabel_group_membership_app :
    ((⟨1, none, none, none,
        some "What Race Ethnicity: Race Ethnicity None Of These",
        none, some 5, none⟩ : AnalysisRow) ∈ df_label_with_poverty) ∧
      "None Of These" ∈ groups_eth (relabel_ethnicity df_label_with_poverty) :=
  ⟨by decide, (C10_relabel_group_membership df_label_with_poverty).2
    ⟨1, none, none, none,
      some "What Race Ethnicity: Race Ethnicity None Of These",
      none, some 5, none⟩ (by decide) (by decide) (by decide)⟩
